import Mathlib

/-!
Verification development for the jellyseerr-mcp core (`src/jellyseerr_mcp/client.py`).

The Python client is shallowly embedded below:

* JSON service / season dictionaries become structures whose fields are
  `Option`-typed, mirroring `dict.get(key)` returning `None` when the key is
  absent or null.
* Python exceptions become an `Except RmError` result; each `raise` site in
  the source maps to one `RmError` constructor carrying exactly the data that
  the source interpolates into its message.
* The network is a parameter: `request_media` receives the response that the
  `GET {media_type}/{media_id}` details fetch would produce and returns the
  payload it would `POST` together with the trace of network calls it made.
-/

namespace JellyseerrMcp

/-- A fulfillment-service entry of the Media Details' `services` list
(`s.get("id")`, `s.get("slug")`; `none` models an absent or null key). -/
structure Service where
  id : Option Int
  slug : Option String
  deriving Repr, DecidableEq

/-- A season entry of the Media Details' `seasons` list.  `extra` stands for
all server-provided fields other than `seasonNumber`, which the client never
inspects but must pass through whole. -/
structure Season where
  seasonNumber : Option Int
  extra : String
  deriving Repr, DecidableEq

/-- The Media Details record fetched by `GET {media_type}/{media_id}`.
`id` models `media_details["id"]` (`none` = key absent, which would raise
`KeyError`); `services` and `seasons` model `media_details.get(key, [])`. -/
structure MediaDetails where
  id : Option Int
  services : List Service
  seasons : List Season
  deriving Repr, DecidableEq

/-- The error taxonomy of the client.  Each validation constructor corresponds
to one `raise ValueError(...)` site (the spec's `InvalidArgument`) and carries
the data interpolated into that site's message; the three `request` constructors
correspond to the three `except` branches of `JellyseerrClient.request`
(`RemoteApiError` / `ConnectionError` / `UnexpectedError` in the spec, all
raised as `RuntimeError` with distinguishing messages in the source);
`keyError` and `indexError` model the uncaught Python exceptions that a
missing `"id"` key or an empty-list subscript would raise. -/
inductive RmError where
  | invalidMediaType (mediaType : String)
  | noServices (mediaId : Int) (mediaType : String)
  | serverIdNotFound (serverId : Int) (mediaId : Int) (availableIds : List Int)
  | slugNotFound (slug : String) (mediaId : Int) (availableSlugs : List String)
  | invalidSeasons (invalid : List Int) (mediaId : Int) (available : List Int)
  | remoteApiError (method url : String) (status : Nat) (detail : String)
  | connectionError (method url : String) (detail : String)
  | unexpectedError (method url : String) (detail : String)
  | keyError (key : String)
  | indexError
  deriving Repr, DecidableEq

/-- The spec's `InvalidArgument` class: exactly the errors raised as
`ValueError` by the source. -/
def RmError.isInvalidArgument : RmError → Bool
  | .invalidMediaType _ => true
  | .noServices _ _ => true
  | .serverIdNotFound _ _ _ => true
  | .slugNotFound _ _ _ => true
  | .invalidSeasons _ _ _ => true
  | _ => false

/-- Python truthiness of an `Optional[int]`: `None` and `0` are falsy. -/
def pyTruthyInt : Option Int → Bool
  | some v => v != 0
  | none => false

/-- Python truthiness of an `Optional[str]`: `None` and `""` are falsy. -/
def pyTruthyStr : Option String → Bool
  | some s => s != ""
  | none => false

/-- `client.py` lines 108-116: the explicit `server_id` branch.
`next((s for s in services if s.get("id") == server_id), None)` is the first
service whose id equals `server_id`; on no match the raised message lists
`[s.get("id") for s in services if s.get("id") is not None]`. -/
def selectById (serverId : Int) (mediaId : Int) (services : List Service) :
    Except RmError Service :=
  match services.find? (fun s => s.id == some serverId) with
  | some s => .ok s
  | none => .error (.serverIdNotFound serverId mediaId (services.filterMap (·.id)))

/-- `client.py` lines 117-126: the explicit `service_slug` branch.  On no
match the raised message lists `[s.get("slug") for s in services if
s.get("slug")]` (truthiness drops both absent and empty slugs). -/
def selectBySlug (serviceSlug : String) (mediaId : Int) (services : List Service) :
    Except RmError Service :=
  match services.find? (fun s => s.slug == some serviceSlug) with
  | some s => .ok s
  | none =>
      .error (.slugNotFound serviceSlug mediaId
        ((services.filterMap (·.slug)).filter (fun sl => sl != "")))

/-- `client.py` lines 127-143: auto-selection.  Preferred slug is
`"radarr"`/`"sonarr"` with `"_4k"` appended when `is_4k`; failing that and
`is_4k`, the bare slug; failing that, `services[0]` (which raises `IndexError`
on an empty list, unreachable behind the emptiness check of line 103). -/
def selectAuto (mediaType : String) (is4k : Bool) (services : List Service) :
    Except RmError Service :=
  let baseSlug := if mediaType = "movie" then "radarr" else "sonarr"
  let preferredSlug := if is4k then baseSlug ++ "_4k" else baseSlug
  match services.find? (fun s => s.slug == some preferredSlug) with
  | some s => .ok s
  | none =>
      match (if is4k then services.find? (fun s => s.slug == some baseSlug) else none) with
      | some s => .ok s
      | none =>
          match services with
          | [] => .error .indexError
          | s :: _ => .ok s

/-- `client.py` lines 106-143: the full service-selection block.  Note the
guards are Python truthiness tests (`if server_id:` / `elif service_slug:`),
so `server_id = 0` and `service_slug = ""` fall through. -/
def selectService (serverId : Option Int) (serviceSlug : Option String)
    (mediaType : String) (is4k : Bool) (mediaId : Int)
    (services : List Service) : Except RmError Service :=
  if pyTruthyInt serverId then
    selectById (serverId.getD 0) mediaId services
  else if pyTruthyStr serviceSlug then
    selectBySlug (serviceSlug.getD "") mediaId services
  else
    selectAuto mediaType is4k services

/-- The Request Payload built at `client.py` lines 146-172.  `seasons = none`
models the key being absent from the payload dict; `some l` models
`payload["seasons"] = l`. -/
structure Payload where
  mediaId : Int
  mediaType : String
  is4k : Bool
  serverId : Int
  seasons : Option (List Season)
  deriving Repr, DecidableEq

/-- One network call issued through the Gateway Client. -/
inductive NetCall where
  | get (endpoint : String)
  | post (endpoint : String) (payload : Payload)
  deriving Repr, DecidableEq

/-- `client.py` lines 153-173: season validation and filtering for TV.
`available_season_numbers` keeps only non-null `seasonNumber`s; every
requested number must occur there; the payload's `seasons` are the full
season objects, in server order, whose `seasonNumber` is in the request. -/
def applySeasons (mediaId : Int) (mediaType : String)
    (seasons : Option (List Int)) (details : MediaDetails) (p : Payload) :
    Except RmError Payload :=
  if mediaType = "tv" then
    match seasons with
    | none => .ok p
    | some requested =>
        let availableSeasons := details.seasons
        let availableNumbers := availableSeasons.filterMap (·.seasonNumber)
        let invalid := requested.filter (fun n => !(availableNumbers.contains n))
        if invalid ≠ [] then
          .error (.invalidSeasons invalid mediaId availableNumbers)
        else
          .ok { p with
            seasons := some (availableSeasons.filter (fun s =>
              match s.seasonNumber with
              | some n => requested.contains n
              | none => false)) }
  else .ok p

/-- `JellyseerrClient.request_media` (`client.py` lines 71-175), embedded as a
pure function.  `detailsResp` is the response the `GET {media_type}/{media_id}`
fetch would produce.  The first component is the payload sent by the final
`POST request` (whose own response is returned verbatim by the source and not
modeled) or the error raised; the second is the trace of network calls made. -/
def requestMedia (detailsResp : Except RmError MediaDetails)
    (mediaId : Int) (mediaType : String) (is4k : Bool)
    (seasons : Option (List Int)) (serverId : Option Int)
    (serviceSlug : Option String) :
    Except RmError Payload × List NetCall :=
  if mediaType ≠ "movie" ∧ mediaType ≠ "tv" then
    (.error (.invalidMediaType mediaType), [])
  else
    let getCall := NetCall.get (mediaType ++ "/" ++ toString mediaId)
    match detailsResp with
    | .error e => (.error e, [getCall])
    | .ok details =>
        if details.services = [] then
          (.error (.noServices mediaId mediaType), [getCall])
        else
          match selectService serverId serviceSlug mediaType is4k mediaId
              details.services with
          | .error e => (.error e, [getCall])
          | .ok service =>
              match details.id, service.id with
              | none, _ => (.error (.keyError "id"), [getCall])
              | some _, none => (.error (.keyError "id"), [getCall])
              | some detailsId, some serviceId =>
                  let p : Payload :=
                    { mediaId := detailsId, mediaType := mediaType,
                      is4k := is4k, serverId := serviceId, seasons := none }
                  match applySeasons mediaId mediaType seasons details p with
                  | .error e => (.error e, [getCall])
                  | .ok p => (.ok p, [getCall, .post "request" p])

/-! ### URL encoding (`search_media`, `client.py` lines 66-69)

`search_media` applies `urllib.parse.quote_plus` to the query and then hands
the result to the HTTP layer as an ordinary `params` value; the HTTP layer
(httpx, via `urllib.parse.urlencode`) percent-encodes each value again when
serializing the request.  Both encoders are embedded below at the level of
characters / UTF-8 bytes. -/

/-- Uppercase hexadecimal digit of `n < 16` (Python's `quote` emits uppercase). -/
def hexDigitUpper (n : Nat) : Char :=
  if n < 10 then Char.ofNat (48 + n) else Char.ofNat (55 + n)

/-- UTF-8 bytes of a code point, as `Nat`s below 256. -/
def utf8Bytes (n : Nat) : List Nat :=
  if n < 128 then [n]
  else if n < 2048 then [192 + n / 64, 128 + n % 64]
  else if n < 65536 then [224 + n / 4096, 128 + (n / 64) % 64, 128 + n % 64]
  else [240 + n / 262144, 128 + (n / 4096) % 64, 128 + (n / 64) % 64, 128 + n % 64]

/-- The characters `urllib.parse.quote` never encodes
(ASCII letters, digits, `_`, `.`, `-`, `~`). -/
def isAlwaysSafe (c : Char) : Bool :=
  (97 ≤ c.toNat && c.toNat ≤ 122) || (65 ≤ c.toNat && c.toNat ≤ 90) ||
  (48 ≤ c.toNat && c.toNat ≤ 57) || c == '_' || c == '.' || c == '-' || c == '~'

/-- `%XX%YY...` percent-encoding of one character's UTF-8 bytes. -/
def percentEncodeChar (c : Char) : String :=
  String.join ((utf8Bytes c.toNat).map (fun b =>
    String.mk ['%', hexDigitUpper (b / 16), hexDigitUpper (b % 16)]))

/-- `urllib.parse.quote_plus` with its default safe set: always-safe
characters pass through, a space becomes `+`, everything else is
percent-encoded. -/
def quotePlus (s : String) : String :=
  String.join (s.data.map (fun c =>
    if isAlwaysSafe c then String.singleton c
    else if c == ' ' then "+" else percentEncodeChar c))

/-- Hexadecimal digit value, or `none`. -/
def hexVal (c : Char) : Option Nat :=
  if 48 ≤ c.toNat && c.toNat ≤ 57 then some (c.toNat - 48)
  else if 65 ≤ c.toNat && c.toNat ≤ 70 then some (c.toNat - 55)
  else if 97 ≤ c.toNat && c.toNat ≤ 102 then some (c.toNat - 87)
  else none

/-- `urllib.parse.unquote_plus` restricted to ASCII percent-sequences (the
server-side decode of a transmitted query-string value): `+` becomes a space,
`%XX` becomes the byte `XX`, malformed sequences pass through unchanged. -/
def unquotePlusChars : List Char → List Char
  | [] => []
  | '+' :: rest => ' ' :: unquotePlusChars rest
  | '%' :: h1 :: h2 :: rest =>
      match hexVal h1, hexVal h2 with
      | some a, some b => Char.ofNat (16 * a + b) :: unquotePlusChars rest
      | _, _ => '%' :: unquotePlusChars (h1 :: h2 :: rest)
  | c :: rest => c :: unquotePlusChars rest

def unquotePlus (s : String) : String := String.mk (unquotePlusChars s.data)

/-- `client.py` line 68: the value stored under key `"query"` in the `params`
dict handed to `request`. -/
def searchMediaQueryParam (query : String) : String := quotePlus query

/-- Modelled from the collaborator contract (httpx serializes `params` with
`urllib.parse.urlencode`, which applies `quote_plus` to every value): the
query-string value actually transmitted on the wire for `search_media`. -/
def searchTransmittedQuery (query : String) : String :=
  quotePlus (searchMediaQueryParam query)

/-! ### Gateway Client `request` (`client.py` lines 33-62) -/

/-- ASCII uppercase of one character. -/
def asciiUpperChar (c : Char) : Char :=
  if 97 ≤ c.toNat && c.toNat ≤ 122 then Char.ofNat (c.toNat - 32) else c

/-- `str.upper()` on the ASCII method names the client uses. -/
def pyUpper (s : String) : String := String.mk (s.data.map asciiUpperChar)

/-- `endpoint.lstrip('/')`: drop every leading slash. -/
def pyLstripSlash (s : String) : String :=
  String.mk (s.data.dropWhile (fun c => c == '/'))

/-- The outcome of the underlying `httpx` round trip, seen from the `try`
block: a response (with status, body text, reason phrase, and the result of
`resp.json()` — `Except` error = the `JSONDecodeError` class name and message),
a transport-level `httpx.RequestError` (class name and message), or any other
exception. -/
inductive HttpOutcome (J : Type) where
  | response (status : Nat) (bodyText reasonPhrase : String)
      (json : Except (String × String) J)
  | transportFailure (className message : String)
  | otherFailure (className message : String)

/-- `JellyseerrClient.request`: resolves the URL
(`f"{base_url}/{endpoint.lstrip('/')}"`), uppercases the method, and
translates the outcome.  `raise_for_status` raises `httpx.HTTPStatusError`
exactly for 4xx/5xx statuses, caught first and turned into the
`RemoteApiError`-class message with the body text or the
reason-phrase/"Unknown error" fallback; `httpx.RequestError` becomes the
`ConnectionError`-class message; anything else (e.g. a body that fails JSON
parsing) becomes the `UnexpectedError`-class message. -/
def gatewayRequest {J : Type} (baseUrl method endpoint : String)
    (outcome : HttpOutcome J) : Except RmError J :=
  let url := baseUrl ++ "/" ++ pyLstripSlash endpoint
  let m := pyUpper method
  match outcome with
  | .response status bodyText reasonPhrase json =>
      if 400 ≤ status ∧ status < 600 then
        .error (.remoteApiError m url status
          (if bodyText ≠ "" then bodyText
           else if reasonPhrase ≠ "" then reasonPhrase else "Unknown error"))
      else
        match json with
        | .ok j => .ok j
        | .error (cls, msg) => .error (.unexpectedError m url (cls ++ ": " ++ msg))
  | .transportFailure cls msg =>
      .error (.connectionError m url (if msg ≠ "" then cls ++ " - " ++ msg else cls))
  | .otherFailure cls msg => .error (.unexpectedError m url (cls ++ ": " ++ msg))

/-! ### Connection lifecycle (`client.py` lines 20-31) -/

/-- The mutable connection field `self._client`: `none` until `_get_client`
lazily creates the underlying `httpx.AsyncClient`. -/
structure ClientState where
  conn : Option Nat
  deriving Repr, DecidableEq

/-- `__init__` line 21: no connection is opened at construction. -/
def initClientState : ClientState := ⟨none⟩

/-- `_get_client` (lines 23-26): reuse the existing connection or create one
(`fresh` stands for the newly constructed `httpx.AsyncClient`). -/
def getClient (s : ClientState) (fresh : Nat) : ClientState × Nat :=
  match s.conn with
  | some c => (s, c)
  | none => (⟨some fresh⟩, fresh)

/-- `close` (lines 28-31): when a connection exists, await its `aclose` and
reset the field; otherwise do nothing.  The boolean reports whether `aclose`
was invoked.  Every path returns normally — no branch raises. -/
def closeClient (s : ClientState) : ClientState × Bool :=
  match s.conn with
  | some _ => (⟨none⟩, true)
  | none => (s, false)

/-! ### Concrete data used to exercise the theorems below -/

/-- A TV Media Details record: one sonarr service, seasons 1 and 2. -/
def tvDetails : MediaDetails :=
  ⟨some 10, [⟨some 1, some "sonarr"⟩], [⟨some 1, "s1"⟩, ⟨some 2, "s2"⟩]⟩

/-- A movie Media Details record: radarr (id 1) and radarr_4k (id 2). -/
def movieDetails : MediaDetails :=
  ⟨some 10, [⟨some 1, some "radarr"⟩, ⟨some 2, some "radarr_4k"⟩], []⟩

/-! ### Helper lemmas shared by the claim theorems -/

theorem selectById_mem (v mediaId : Int) (services : List Service) (s : Service)
    (h : selectById v mediaId services = .ok s) : s ∈ services := by
  unfold selectById at h
  cases h1 : services.find? (fun t => t.id == some v) with
  | some t => rw [h1] at h; cases h; exact List.mem_of_find?_eq_some h1
  | none => rw [h1] at h; cases h

theorem selectBySlug_mem (sl : String) (mediaId : Int) (services : List Service)
    (s : Service) (h : selectBySlug sl mediaId services = .ok s) : s ∈ services := by
  unfold selectBySlug at h
  cases h1 : services.find? (fun t => t.slug == some sl) with
  | some t => rw [h1] at h; cases h; exact List.mem_of_find?_eq_some h1
  | none => rw [h1] at h; cases h

theorem findChain_mem (p1 p2 : Service → Bool) (fallback : Bool)
    (services : List Service) (s : Service)
    (h : (match services.find? p1 with
          | some t => Except.ok (ε := RmError) t
          | none =>
            match (if fallback then services.find? p2 else none) with
            | some t => .ok t
            | none =>
              match services with
              | [] => .error .indexError
              | t :: _ => .ok t) = .ok s) : s ∈ services := by
  cases h1 : services.find? p1 with
  | some t => rw [h1] at h; cases h; exact List.mem_of_find?_eq_some h1
  | none =>
    rw [h1] at h
    cases h2 : (if fallback then services.find? p2 else none) with
    | some t =>
      rw [h2] at h
      cases h
      have h3 : services.find? p2 = some s := by
        by_cases hb : fallback
        · rwa [if_pos hb] at h2
        · rw [if_neg hb] at h2; cases h2
      exact List.mem_of_find?_eq_some h3
    | none =>
      rw [h2] at h
      cases services with
      | nil => cases h
      | cons a l => cases h; exact List.mem_cons_self _ _

theorem selectAuto_mem (mediaType : String) (is4k : Bool) (services : List Service)
    (s : Service) (h : selectAuto mediaType is4k services = .ok s) : s ∈ services := by
  unfold selectAuto at h
  exact findChain_mem _ _ _ _ _ h

theorem selectService_mem (serverId : Option Int) (serviceSlug : Option String)
    (mediaType : String) (is4k : Bool) (mediaId : Int) (services : List Service)
    (s : Service)
    (h : selectService serverId serviceSlug mediaType is4k mediaId services = .ok s) :
    s ∈ services := by
  unfold selectService at h
  split at h
  · exact selectById_mem _ _ _ _ h
  · split at h
    · exact selectBySlug_mem _ _ _ _ h
    · exact selectAuto_mem _ _ _ _ h

theorem applySeasons_ok_shape (mediaId : Int) (mediaType : String)
    (seasons : Option (List Int)) (details : MediaDetails) (q r : Payload)
    (h : applySeasons mediaId mediaType seasons details q = .ok r) :
    r.mediaId = q.mediaId ∧ r.mediaType = q.mediaType ∧ r.is4k = q.is4k ∧
    r.serverId = q.serverId ∧
    (r.seasons = q.seasons ∨ ∃ requested, seasons = some requested ∧
      r.seasons = some (details.seasons.filter (fun s =>
        match s.seasonNumber with
        | some n => requested.contains n
        | none => false))) := by
  simp only [applySeasons] at h
  split at h
  · split at h
    · cases h
      exact ⟨rfl, rfl, rfl, rfl, Or.inl rfl⟩
    · rename_i requested
      split at h
      · cases h
      · cases h
        exact ⟨rfl, rfl, rfl, rfl, Or.inr ⟨requested, rfl, rfl⟩⟩
  · cases h
    exact ⟨rfl, rfl, rfl, rfl, Or.inl rfl⟩

theorem requestMedia_ok_unfold (details : MediaDetails) (mediaId : Int)
    (mediaType : String) (is4k : Bool) (seasons : Option (List Int))
    (serverId : Option Int) (serviceSlug : Option String)
    (hmt : mediaType = "movie" ∨ mediaType = "tv") (hs : details.services ≠ []) :
    requestMedia (.ok details) mediaId mediaType is4k seasons serverId serviceSlug =
      match selectService serverId serviceSlug mediaType is4k mediaId
          details.services with
      | .error e => (.error e, [.get (mediaType ++ "/" ++ toString mediaId)])
      | .ok service =>
        match details.id, service.id with
        | none, _ =>
            (.error (.keyError "id"), [.get (mediaType ++ "/" ++ toString mediaId)])
        | some _, none =>
            (.error (.keyError "id"), [.get (mediaType ++ "/" ++ toString mediaId)])
        | some did, some sid =>
          match applySeasons mediaId mediaType seasons details
              ⟨did, mediaType, is4k, sid, none⟩ with
          | .error e => (.error e, [.get (mediaType ++ "/" ++ toString mediaId)])
          | .ok p =>
              (.ok p, [.get (mediaType ++ "/" ++ toString mediaId),
                .post "request" p]) := by
  have hneg : ¬(mediaType ≠ "movie" ∧ mediaType ≠ "tv") := by
    rcases hmt with h | h <;> simp [h]
  simp only [requestMedia, if_neg hneg, if_neg hs]

/-! ### Claim theorems -/

/-- C7: for every call to `request_media` with a media type outside
{movie, tv}, the call fails with the `InvalidArgument`-class error and no
network call (neither the details fetch nor the create) is made. -/
theorem requestMedia_invalid_media_type (detailsResp : Except RmError MediaDetails)
    (mediaId : Int) (mediaType : String) (is4k : Bool)
    (seasons : Option (List Int)) (serverId : Option Int)
    (serviceSlug : Option String)
    (h : mediaType ≠ "movie" ∧ mediaType ≠ "tv") :
    requestMedia detailsResp mediaId mediaType is4k seasons serverId serviceSlug =
      (.error (.invalidMediaType mediaType), []) ∧
    RmError.isInvalidArgument (.invalidMediaType mediaType) = true := by
  refine ⟨?_, rfl⟩
  unfold requestMedia
  rw [if_pos h]

theorem requestMedia_invalid_media_type_witness :
    ("film" ≠ "movie" ∧ "film" ≠ "tv") ∧
    requestMedia (.ok tvDetails) 5 "film" false none none none =
      (.error (.invalidMediaType "film"), []) :=
  ⟨by decide,
    (requestMedia_invalid_media_type (.ok tvDetails) 5 "film" false none none
      none (by decide)).1⟩

/-- C8: `close()` never fails and is idempotent: on a client that never
opened a connection it is a no-op (no `aclose` is invoked), a second `close`
after a first one invokes nothing and leaves the state unchanged, and the
state after closing twice equals the state after closing once. -/
theorem closeClient_idempotent_noop :
    closeClient initClientState = (initClientState, false) ∧
    (∀ s : ClientState, closeClient (closeClient s).1 = ((closeClient s).1, false)) ∧
    (∀ s : ClientState, (closeClient (closeClient s).1).1 = (closeClient s).1) := by
  refine ⟨rfl, ?_, ?_⟩ <;> intro s <;> rcases s with ⟨_ | c⟩ <;> rfl

/-- C2 (code evaluation at the failing input): for the query `"star wars"`,
`search_media` pre-encodes with `quote_plus` and the HTTP layer encodes the
`params` value again, so the wire carries `query=star%2Bwars`; one server-side
decode yields `"star+wars"`, not the original `"star wars"`. -/
theorem searchMedia_double_encodes :
    searchMediaQueryParam "star wars" = "star+wars" ∧
    searchTransmittedQuery "star wars" = "star%2Bwars" ∧
    unquotePlus (searchTransmittedQuery "star wars") = "star+wars" ∧
    unquotePlus (searchTransmittedQuery "star wars") ≠ "star wars" :=
  ⟨rfl, rfl, rfl, by decide⟩

/-- C5: every Gateway Client request whose downstream responds with an HTTP
status ≥ 400 (HTTP statuses are three-digit, hence < 600) fails with the
`RemoteApiError`-class error — a class distinct from `ConnectionError` and
`UnexpectedError` — carrying the uppercased method, the resolved URL, the
status code, and the response body text, falling back to the reason phrase or
`"Unknown error"` when the body is empty. -/
theorem gatewayRequest_remote_api_error {J : Type}
    (baseUrl method endpoint : String) (status : Nat)
    (bodyText reasonPhrase : String) (json : Except (String × String) J)
    (h1 : 400 ≤ status) (h2 : status < 600) :
    gatewayRequest baseUrl method endpoint
        (.response status bodyText reasonPhrase json) =
      .error (.remoteApiError (pyUpper method)
        (baseUrl ++ "/" ++ pyLstripSlash endpoint) status
        (if bodyText ≠ "" then bodyText
         else if reasonPhrase ≠ "" then reasonPhrase else "Unknown error")) ∧
    (∀ m u d m2 u2 d2,
      RmError.remoteApiError m u status d ≠ .connectionError m2 u2 d2) ∧
    (∀ m u d m2 u2 d2,
      RmError.remoteApiError m u status d ≠ .unexpectedError m2 u2 d2) := by
  refine ⟨?_, fun m u d m2 u2 d2 hc => RmError.noConfusion hc,
    fun m u d m2 u2 d2 hc => RmError.noConfusion hc⟩
  simp only [gatewayRequest]
  rw [if_pos ⟨h1, h2⟩]

theorem gatewayRequest_remote_api_error_witness :
    (400 ≤ 404 ∧ 404 < 600) ∧
    gatewayRequest (J := Nat) "http://jellyseerr/api/v1" "get" "/search"
        (.response 404 "media not found" "Not Found" (.ok 0)) =
      .error (.remoteApiError "GET" "http://jellyseerr/api/v1/search" 404
        "media not found") :=
  ⟨⟨by decide, by decide⟩,
    (gatewayRequest_remote_api_error (J := Nat) "http://jellyseerr/api/v1"
      "get" "/search" 404 "media not found" "Not Found" (.ok 0)
      (by decide) (by decide)).1⟩

theorem selectService_zero_serverId (serviceSlug : Option String)
    (mediaType : String) (is4k : Bool) (mediaId : Int)
    (services : List Service) :
    selectService (some 0) serviceSlug mediaType is4k mediaId services =
      selectService none serviceSlug mediaType is4k mediaId services := rfl

theorem selectService_empty_slug (serverId : Option Int) (mediaType : String)
    (is4k : Bool) (mediaId : Int) (services : List Service) :
    selectService serverId (some "") mediaType is4k mediaId services =
      selectService serverId none mediaType is4k mediaId services := by
  unfold selectService
  split
  · rfl
  · rfl

/-- C9: `server_id = 0` is falsy in Python, so the explicit-id branch is
skipped and the call behaves exactly as if `server_id` were not given;
likewise `service_slug = ""` behaves as if not given. -/
theorem requestMedia_falsy_selection_args
    (detailsResp : Except RmError MediaDetails) (mediaId : Int)
    (mediaType : String) (is4k : Bool) (seasons : Option (List Int))
    (serverId : Option Int) (serviceSlug : Option String) :
    requestMedia detailsResp mediaId mediaType is4k seasons (some 0) serviceSlug =
      requestMedia detailsResp mediaId mediaType is4k seasons none serviceSlug ∧
    requestMedia detailsResp mediaId mediaType is4k seasons serverId (some "") =
      requestMedia detailsResp mediaId mediaType is4k seasons serverId none := by
  constructor
  · simp only [requestMedia, selectService_zero_serverId]
  · simp only [requestMedia, selectService_empty_slug]

/-- C3: with neither serverId nor serviceSlug given, selection computes the
preferred slug ("radarr" for movie, "sonarr" for tv, "_4k" appended when
is4k) and takes the first service whose slug matches exactly; failing that,
when is4k, the first service matching the non-4K slug; failing that, the
first service in server-provided order. -/
theorem selectService_auto_selection (mediaType : String) (is4k : Bool)
    (mediaId : Int) (services : List Service)
    (hmt : mediaType = "movie" ∨ mediaType = "tv") (hs : services ≠ []) :
    (∀ s, services.find? (fun t => t.slug ==
        some (if is4k then (if mediaType = "movie" then "radarr" else "sonarr") ++ "_4k"
              else if mediaType = "movie" then "radarr" else "sonarr")) = some s →
      selectService none none mediaType is4k mediaId services = .ok s) ∧
    (services.find? (fun t => t.slug ==
        some (if is4k then (if mediaType = "movie" then "radarr" else "sonarr") ++ "_4k"
              else if mediaType = "movie" then "radarr" else "sonarr")) = none →
      is4k = true →
      ∀ s, services.find? (fun t => t.slug ==
          some (if mediaType = "movie" then "radarr" else "sonarr")) = some s →
        selectService none none mediaType is4k mediaId services = .ok s) ∧
    (services.find? (fun t => t.slug ==
        some (if is4k then (if mediaType = "movie" then "radarr" else "sonarr") ++ "_4k"
              else if mediaType = "movie" then "radarr" else "sonarr")) = none →
      (is4k = true → services.find? (fun t => t.slug ==
          some (if mediaType = "movie" then "radarr" else "sonarr")) = none) →
      selectService none none mediaType is4k mediaId services =
        .ok (services.head hs)) := by
  have hred : selectService none none mediaType is4k mediaId services =
      selectAuto mediaType is4k services := rfl
  refine ⟨?_, ?_, ?_⟩
  · intro s hf
    rw [hred]
    simp only [selectAuto]
    rw [hf]
  · intro hf h4 s hf2
    rw [hred]
    simp only [selectAuto]
    rw [hf, if_pos h4, hf2]
  · intro hf hfall
    rw [hred]
    simp only [selectAuto]
    rw [hf]
    have htail : (if is4k = true then services.find? (fun t => t.slug ==
        some (if mediaType = "movie" then "radarr" else "sonarr")) else none) = none := by
      by_cases h4 : is4k = true
      · rw [if_pos h4]
        exact hfall h4
      · rw [if_neg h4]
    rw [htail]
    cases services with
    | nil => exact absurd rfl hs
    | cons a l => rfl

theorem selectService_auto_selection_witness :
    (("movie" : String) = "movie" ∨ ("movie" : String) = "tv") ∧
    movieDetails.services ≠ [] ∧
    selectService none none "movie" true 5 movieDetails.services =
      .ok ⟨some 2, some "radarr_4k"⟩ :=
  ⟨Or.inl rfl, by decide,
    (selectService_auto_selection "movie" true 5 movieDetails.services
      (Or.inl rfl) (by decide)).1 ⟨some 2, some "radarr_4k"⟩ rfl⟩

/-- C1 counterexample: `server_id = 0` is given and no service has id 0, yet
the call does not fail with the id-not-found error — it succeeds through
auto-selection and posts serverId 1. -/
theorem requestMedia_serverId_zero_cex :
    (∀ s ∈ movieDetails.services, s.id ≠ some 0) ∧
    (requestMedia (.ok movieDetails) 5 "movie" false none (some 0) none).1 =
      .ok ⟨10, "movie", false, 1, none⟩ :=
  ⟨by decide, rfl⟩

/-- C1 (amended: serverId given and nonzero, since `if server_id:` is a
truthiness test): the first service whose id equals serverId is selected,
regardless of serviceSlug and is4k; if no service has that id, the call fails
with the `InvalidArgument`-class error listing all available (non-null) ids. -/
theorem requestMedia_explicit_serverId (details : MediaDetails)
    (mediaId v : Int) (mediaType : String) (is4k : Bool)
    (seasons : Option (List Int)) (serviceSlug : Option String)
    (hmt : mediaType = "movie" ∨ mediaType = "tv") (hv : v ≠ 0)
    (hs : details.services ≠ []) :
    ((∃ s ∈ details.services, s.id = some v) →
      ∃ s, selectService (some v) serviceSlug mediaType is4k mediaId
          details.services = .ok s ∧
        s ∈ details.services ∧ s.id = some v) ∧
    ((∀ s ∈ details.services, s.id ≠ some v) →
      (requestMedia (.ok details) mediaId mediaType is4k seasons (some v)
          serviceSlug).1 =
        .error (.serverIdNotFound v mediaId
          (details.services.filterMap (fun s => s.id))) ∧
      RmError.isInvalidArgument (.serverIdNotFound v mediaId
        (details.services.filterMap (fun s => s.id))) = true) := by
  have htruthy : pyTruthyInt (some v) = true := by
    simpa [pyTruthyInt] using hv
  have hone : selectService (some v) serviceSlug mediaType is4k mediaId
      details.services = selectById v mediaId details.services := by
    unfold selectService
    rw [if_pos htruthy]
    rfl
  constructor
  · rintro ⟨t, ht, htid⟩
    have hsome : (details.services.find? (fun u => u.id == some v)).isSome := by
      rw [List.find?_isSome]
      exact ⟨t, ht, by simp [htid]⟩
    obtain ⟨s, hfs⟩ := Option.isSome_iff_exists.mp hsome
    refine ⟨s, ?_, List.mem_of_find?_eq_some hfs, ?_⟩
    · rw [hone]
      unfold selectById
      rw [hfs]
    · simpa using List.find?_some hfs
  · intro hnone
    have hfn : details.services.find? (fun u => u.id == some v) = none := by
      rw [List.find?_eq_none]
      intro x hx
      simpa using hnone x hx
    have hsel : selectService (some v) serviceSlug mediaType is4k mediaId
        details.services =
        .error (.serverIdNotFound v mediaId
          (details.services.filterMap (fun s => s.id))) := by
      rw [hone]
      unfold selectById
      rw [hfn]
    refine ⟨?_, rfl⟩
    rw [requestMedia_ok_unfold details mediaId mediaType is4k seasons (some v)
      serviceSlug hmt hs, hsel]

theorem requestMedia_explicit_serverId_witness :
    ((("movie" : String) = "movie" ∨ ("movie" : String) = "tv") ∧
      (2 : Int) ≠ 0 ∧ movieDetails.services ≠ [] ∧
      (∃ s ∈ movieDetails.services, s.id = some 2)) ∧
    (∃ s, selectService (some 2) (some "radarr") "movie" true 5
        movieDetails.services = .ok s ∧
      s ∈ movieDetails.services ∧ s.id = some 2) :=
  ⟨⟨Or.inl rfl, by decide, by decide, by decide⟩,
    (requestMedia_explicit_serverId movieDetails 5 2 "movie" true none
      (some "radarr") (Or.inl rfl) (by decide) (by decide)).1 (by decide)⟩

theorem applySeasons_tv_some (mediaId : Int) (requested : List Int)
    (details : MediaDetails) (p : Payload) :
    applySeasons mediaId "tv" (some requested) details p =
      (if requested.filter (fun n =>
          !((details.seasons.filterMap (fun t => t.seasonNumber)).contains n)) ≠ [] then
        .error (.invalidSeasons
          (requested.filter (fun n =>
            !((details.seasons.filterMap (fun t => t.seasonNumber)).contains n)))
          mediaId (details.seasons.filterMap (fun t => t.seasonNumber)))
      else
        .ok { p with seasons := some (details.seasons.filter (fun s =>
          match s.seasonNumber with
          | some n => requested.contains n
          | none => false)) }) := by
  simp only [applySeasons]
  rfl

theorem applySeasons_tv_none (mediaId : Int) (details : MediaDetails)
    (p : Payload) :
    applySeasons mediaId "tv" none details p = .ok p := by
  simp only [applySeasons]
  rfl

/-- C4: for a TV request with an explicit seasons list, if any requested
season number is absent from the Details' available season numbers the call
fails with the `InvalidArgument`-class error listing the invalid numbers and
the full available set; otherwise the payload's seasons are exactly the full
server-returned Season objects whose seasonNumber is in the requested set, in
the server's original order; and a null seasons argument omits the field. -/
theorem requestMedia_tv_seasons (details : MediaDetails) (mediaId : Int)
    (is4k : Bool) (requested : List Int) (serverId : Option Int)
    (serviceSlug : Option String) (service : Service) (did sid : Int)
    (hs : details.services ≠ [])
    (hsel : selectService serverId serviceSlug "tv" is4k mediaId
      details.services = .ok service)
    (hdid : details.id = some did) (hsid : service.id = some sid) :
    ((∃ n ∈ requested,
        n ∉ details.seasons.filterMap (fun t => t.seasonNumber)) →
      (requestMedia (.ok details) mediaId "tv" is4k (some requested) serverId
          serviceSlug).1 =
        .error (.invalidSeasons
          (requested.filter (fun n =>
            !((details.seasons.filterMap (fun t => t.seasonNumber)).contains n)))
          mediaId (details.seasons.filterMap (fun t => t.seasonNumber))) ∧
      RmError.isInvalidArgument (.invalidSeasons
        (requested.filter (fun n =>
          !((details.seasons.filterMap (fun t => t.seasonNumber)).contains n)))
        mediaId (details.seasons.filterMap (fun t => t.seasonNumber))) = true) ∧
    ((∀ n ∈ requested,
        n ∈ details.seasons.filterMap (fun t => t.seasonNumber)) →
      (requestMedia (.ok details) mediaId "tv" is4k (some requested) serverId
          serviceSlug).1 =
        .ok ⟨did, "tv", is4k, sid, some (details.seasons.filter (fun s =>
          match s.seasonNumber with
          | some n => requested.contains n
          | none => false))⟩) ∧
    ((requestMedia (.ok details) mediaId "tv" is4k none serverId
        serviceSlug).1 = .ok ⟨did, "tv", is4k, sid, none⟩) := by
  have hro1 := requestMedia_ok_unfold details mediaId "tv" is4k (some requested)
    serverId serviceSlug (Or.inr rfl) hs
  have hro2 := requestMedia_ok_unfold details mediaId "tv" is4k none
    serverId serviceSlug (Or.inr rfl) hs
  simp only [hsel, hdid, hsid, applySeasons_tv_some, applySeasons_tv_none]
    at hro1 hro2
  refine ⟨?_, ?_, ?_⟩
  · intro hex
    have hinv : requested.filter (fun n =>
        !((details.seasons.filterMap (fun t => t.seasonNumber)).contains n)) ≠ [] := by
      intro hc
      rw [List.filter_eq_nil_iff] at hc
      obtain ⟨n, hn, hnot⟩ := hex
      exact (hc n hn) (by simpa using hnot)
    refine ⟨?_, rfl⟩
    rw [hro1, if_pos hinv]
  · intro hall
    have hflt : requested.filter (fun n =>
        !((details.seasons.filterMap (fun t => t.seasonNumber)).contains n)) = [] := by
      rw [List.filter_eq_nil_iff]
      intro n hn
      simpa using hall n hn
    rw [hro1, if_neg (not_not_intro hflt)]
  · rw [hro2]

theorem requestMedia_tv_seasons_witness :
    (tvDetails.services ≠ [] ∧ tvDetails.id = some 10 ∧
      (∀ n ∈ [(2 : Int)],
        n ∈ tvDetails.seasons.filterMap (fun t => t.seasonNumber))) ∧
    (requestMedia (.ok tvDetails) 5 "tv" false (some [2]) none none).1 =
      .ok ⟨10, "tv", false, 1, some [⟨some 2, "s2"⟩]⟩ :=
  ⟨⟨by decide, rfl, by decide⟩,
    (requestMedia_tv_seasons tvDetails 5 false [2] none none
      ⟨some 1, some "sonarr"⟩ 10 1 (by decide) rfl rfl rfl).2.1 (by decide)⟩

/-- C10: for a TV request with seasons given as the empty list, validation
passes vacuously and the payload's seasons field is present and equal to the
empty list — in contrast to seasons = null, which omits the field. -/
theorem requestMedia_empty_seasons_list (details : MediaDetails)
    (mediaId : Int) (is4k : Bool) (serverId : Option Int)
    (serviceSlug : Option String) (service : Service) (did sid : Int)
    (hs : details.services ≠ [])
    (hsel : selectService serverId serviceSlug "tv" is4k mediaId
      details.services = .ok service)
    (hdid : details.id = some did) (hsid : service.id = some sid) :
    (requestMedia (.ok details) mediaId "tv" is4k (some []) serverId
        serviceSlug).1 = .ok ⟨did, "tv", is4k, sid, some []⟩ ∧
    (requestMedia (.ok details) mediaId "tv" is4k none serverId
        serviceSlug).1 = .ok ⟨did, "tv", is4k, sid, none⟩ := by
  have hro1 := requestMedia_ok_unfold details mediaId "tv" is4k (some [])
    serverId serviceSlug (Or.inr rfl) hs
  have hro2 := requestMedia_ok_unfold details mediaId "tv" is4k none
    serverId serviceSlug (Or.inr rfl) hs
  simp only [hsel, hdid, hsid, applySeasons_tv_some, applySeasons_tv_none]
    at hro1 hro2
  have hfilter : details.seasons.filter (fun s =>
      match s.seasonNumber with
      | some n => List.contains [] n
      | none => false) = [] := by
    rw [List.filter_eq_nil_iff]
    intro a _
    cases a.seasonNumber <;> simp
  have hreq : List.filter (fun n =>
      !((details.seasons.filterMap (fun t => t.seasonNumber)).contains n))
      ([] : List Int) = [] := rfl
  constructor
  · rw [hro1, if_neg (not_not_intro hreq), hfilter]
  · rw [hro2]

theorem requestMedia_empty_seasons_list_witness :
    (tvDetails.services ≠ [] ∧ tvDetails.id = some 10) ∧
    (requestMedia (.ok tvDetails) 5 "tv" false (some []) none none).1 =
      .ok ⟨10, "tv", false, 1, some []⟩ ∧
    (requestMedia (.ok tvDetails) 5 "tv" false none none none).1 =
      .ok ⟨10, "tv", false, 1, none⟩ :=
  ⟨⟨by decide, rfl⟩,
    (requestMedia_empty_seasons_list tvDetails 5 false none none
      ⟨some 1, some "sonarr"⟩ 10 1 (by decide) rfl rfl rfl).1,
    (requestMedia_empty_seasons_list tvDetails 5 false none none
      ⟨some 1, some "sonarr"⟩ 10 1 (by decide) rfl rfl rfl).2⟩

/-- C6: every successful request_media call posts a payload whose serverId is
the id of a service present in the fetched Media Details' service list, whose
mediaId is the Details' own id (the server-echoed value, not necessarily the
caller's input), and — whenever a seasons field is present — every payload
season's seasonNumber occurs among the Details' season numbers. -/
theorem requestMedia_payload_invariant (details : MediaDetails)
    (mediaId : Int) (mediaType : String) (is4k : Bool)
    (seasons : Option (List Int)) (serverId : Option Int)
    (serviceSlug : Option String) (p : Payload) (calls : List NetCall)
    (h : requestMedia (.ok details) mediaId mediaType is4k seasons serverId
      serviceSlug = (.ok p, calls)) :
    (∃ s ∈ details.services, s.id = some p.serverId) ∧
    details.id = some p.mediaId ∧
    (∀ l, p.seasons = some l → ∀ s ∈ l, ∃ n, s.seasonNumber = some n ∧
      n ∈ details.seasons.filterMap (fun t => t.seasonNumber)) := by
  unfold requestMedia at h
  split at h
  · simp at h
  · simp only [] at h
    split at h
    · simp at h
    · split at h
      · simp at h
      · rename_i service hsel
        split at h
        · simp at h
        · simp at h
        · rename_i did sid hdid hsid
          split at h
          · simp at h
          · rename_i q happ
            simp only [Prod.mk.injEq, Except.ok.injEq] at h
            obtain ⟨hqp, -⟩ := h
            subst hqp
            obtain ⟨hm, -, -, hsrv, hrest⟩ :=
              applySeasons_ok_shape _ _ _ _ _ _ happ
            refine ⟨⟨service, selectService_mem _ _ _ _ _ _ _ hsel, ?_⟩, ?_, ?_⟩
            · rw [hsrv]
              exact hsid
            · rw [hm]
              exact hdid
            · intro l hl s hsmem
              rcases hrest with hnone | ⟨requested, -, hps⟩
              · rw [hnone] at hl
                cases hl
              · rw [hps] at hl
                obtain rfl : details.seasons.filter (fun s =>
                    match s.seasonNumber with
                    | some n => requested.contains n
                    | none => false) = l := Option.some.inj hl
                rw [List.mem_filter] at hsmem
                obtain ⟨hmem, hpred⟩ := hsmem
                cases hsn : s.seasonNumber with
                | none => rw [hsn] at hpred; cases hpred
                | some n =>
                  exact ⟨n, rfl, List.mem_filterMap.mpr ⟨s, hmem, hsn⟩⟩

theorem requestMedia_payload_invariant_witness :
    (requestMedia (.ok tvDetails) 5 "tv" false (some [2]) none none =
      (.ok ⟨10, "tv", false, 1, some [⟨some 2, "s2"⟩]⟩,
        [.get "tv/5", .post "request"
          ⟨10, "tv", false, 1, some [⟨some 2, "s2"⟩]⟩])) ∧
    ((∃ s ∈ tvDetails.services, s.id = some (1 : Int)) ∧
      tvDetails.id = some 10 ∧
      (∀ l, some [Season.mk (some 2) "s2"] = some l → ∀ s ∈ l,
        ∃ n, s.seasonNumber = some n ∧
          n ∈ tvDetails.seasons.filterMap (fun t => t.seasonNumber))) :=
  ⟨rfl,
    requestMedia_payload_invariant tvDetails 5 "tv" false (some [2]) none none
      ⟨10, "tv", false, 1, some [⟨some 2, "s2"⟩]⟩
      [.get "tv/5", .post "request" ⟨10, "tv", false, 1, some [⟨some 2, "s2"⟩]⟩]
      rfl⟩

end JellyseerrMcp
